import Mathlib

/-!
Shallow embedding of `opendbc/sunnypilot/car/hyundai/lead_data_ext.py`.

Python floats are modelled as rationals (`ℚ`), Python ints as `ℤ` or `ℕ`
(the hysteresis counters are only ever non-negative), Python `round`
(banker's rounding, half to even) as `pyRound`, and the
`CP.flags & HyundaiFlags.CANFD` test as a boolean parameter `canfd`.
-/

namespace LeadDataExt

/-- Python 3 `round` to an integer: round half to even. -/
def pyRound (q : ℚ) : ℤ :=
  if q - ⌊q⌋ < 1/2 then ⌊q⌋
  else if 1/2 < q - ⌊q⌋ then ⌊q⌋ + 1
  else if ⌊q⌋ % 2 = 0 then ⌊q⌋ else ⌊q⌋ + 1

/-- `LeadData.__init__`: the snapshot fields; `left_laneline` and
`right_laneline` default to `0` when the constructor omits them. -/
structure LeadData where
  object_gap : ℕ
  lead_distance : ℚ
  lead_rel_speed : ℚ
  lead_visible : Bool
  target_distance : ℚ
  left_laneline : ℚ := 0
  right_laneline : ℚ := 0
  deriving DecidableEq

/-- `CanLeadData.object_rel_gap` (the CAN variant). -/
def CanLeadData.object_rel_gap (d : LeadData) : ℕ :=
  if d.lead_distance = 0 then 0 else if d.lead_rel_speed < -0.2 then 2 else 1

/-- `CanFdLeadData.object_rel_gap` (the CAN-FD variant). -/
def CanFdLeadData.object_rel_gap (d : LeadData) : ℕ :=
  if ¬d.lead_visible then 0 else if d.lead_rel_speed < 0 then 2 else 1

/-- `_hysteresis_update(current, new_value, counter, threshold)`. -/
def hysteresis_update {α : Type} [DecidableEq α] (current new_value : α)
    (counter threshold : ℕ) : α × ℕ :=
  if new_value = current then (current, 0)
  else if counter + 1 ≥ threshold then (new_value, 0)
  else (current, counter + 1)

/-- Iterate `hysteresis_update` over a list of per-cycle candidates. -/
def hysteresis_run {α : Type} [DecidableEq α] (current : α) (counter threshold : ℕ)
    (candidates : List α) : α × ℕ :=
  candidates.foldl (fun p x => hysteresis_update p.1 x p.2 threshold) (current, counter)

/-- `LeadDataCarController.LEAD_HYSTERESIS_FRAMES`. -/
def LEAD_HYSTERESIS_FRAMES : ℕ := 50

/-- The mutable fields of `LeadDataCarController` (besides `CP`, modelled as
the separate `canfd` flag, and the stored raw `lead_one`/`lead_two` inputs,
which no computation reads back). -/
structure ControllerState where
  lead_on_counter : ℕ
  lead_off_counter : ℕ
  lead_visible : Bool
  gap_counter : ℕ
  object_gap : ℕ
  lead_distance : ℚ
  lead_rel_speed : ℚ
  target_distance : ℚ
  left_laneline : ℚ
  right_laneline : ℚ
  deriving DecidableEq

/-- `LeadDataCarController.__init__`. -/
def initState : ControllerState :=
  { lead_on_counter := 0
    lead_off_counter := 0
    lead_visible := false
    gap_counter := 0
    object_gap := 0
    lead_distance := 0
    lead_rel_speed := 0
    target_distance := 0
    left_laneline := 15
    right_laneline := 15 }

/-- The per-cycle inputs read by `LeadDataCarController.update`:
`CC_SP.leadOne.{dRel,vRel,status}`, `CS.out.vEgo`,
`CC.hudControl.leadDistanceBars`, and the four lane fields of `CS`. -/
structure UpdateInputs where
  dRel : ℚ
  vRel : ℚ
  status : Bool
  vEgo : ℚ
  leadDistanceBars : ℤ
  leftLanePosition : ℚ
  rightLanePosition : ℚ
  leftLaneQuality : ℤ
  rightLaneQuality : ℤ

/-- The raw gap bucket computed at the top of
`LeadDataCarController._update_object_gap` (`new_gap`). -/
def object_gap_bucket (lead_distance : Option ℚ) : ℕ :=
  match lead_distance with
  | none => 0
  | some d =>
    if d = 0 then 0
    else if d < 20 then 2
    else if d < 25 then 3
    else if d < 30 then 4
    else 5

/-- `LeadDataCarController._update_object_gap`: returns the new
`(object_gap, gap_counter)` pair. -/
def update_object_gap (object_gap gap_counter : ℕ) (lead_distance : Option ℚ) :
    ℕ × ℕ :=
  hysteresis_update object_gap (object_gap_bucket lead_distance) gap_counter
    LEAD_HYSTERESIS_FRAMES

/-- `LeadDataCarController._update_lead_visible_hysteresis`: returns the new
`(lead_visible, _lead_on_counter, _lead_off_counter)` triple. -/
def update_lead_visible_hysteresis (lead_visible : Bool)
    (on_counter off_counter : ℕ) (raw_lead_visible : Bool) : Bool × ℕ × ℕ :=
  let counter := if raw_lead_visible then on_counter else off_counter
  let r := hysteresis_update lead_visible raw_lead_visible counter LEAD_HYSTERESIS_FRAMES
  if raw_lead_visible then (r.1, r.2, 0) else (r.1, 0, r.2)

/-- `LeadDataCarController._update_target_distance`: returns the new
`target_distance` (reads `self.lead_distance`, passed here explicitly).
The `dict.get` with default `distance_setting_ttc_vals[1]` becomes the
final `else` arm. -/
def update_target_distance (lead_distance vEgo : ℚ) (distance_setting : ℤ) : ℚ :=
  let ttc_distance : ℚ :=
    if distance_setting = 1 then 1.2
    else if distance_setting = 2 then 1.7
    else if distance_setting = 3 then 2.0
    else 1.2
  let stopping_distance := max 10 (vEgo * ttc_distance)
  if lead_distance = 0 then stopping_distance
  else min stopping_distance lead_distance

/-- The scaling step of `_update_lane_positioning`:
`abs(int(round(15 + (raw - 1.7) * (15 / 1.7))))`. -/
def lane_scale (raw : ℚ) : ℤ :=
  |pyRound (15 + (raw - 1.7) * (15 / 1.7))|

/-- The final renormalization step of `_update_lane_positioning`
(from `total = leftlane + rightlane` to the end). -/
def lane_normalize (leftlane rightlane : ℤ) : ℤ × ℤ :=
  let total := leftlane + rightlane
  if total = 0 then (15, 15)
  else
    let l := pyRound ((leftlane : ℚ) / (total : ℚ) * 30)
    (l, 30 - l)

/-- `LeadDataCarController._update_lane_positioning`: returns the new
`(left_laneline, right_laneline)` pair. The sequential Python mutations
become shadowing `let`s; in the `elif rightlaneraw == 0` arm the source
reads `leftlane` unmodified (its own branch was not taken), hence the
plain `leftlane` there. -/
def update_lane_positioning (leftlaneraw rightlaneraw : ℚ)
    (leftlanequal rightlanequal : ℤ) : ℤ × ℤ :=
  let leftlane := lane_scale leftlaneraw
  let rightlane := lane_scale rightlaneraw
  let leftlane := if leftlanequal = 2 ∨ leftlanequal = 3 then leftlane else 0
  let rightlane := if rightlanequal = 2 ∨ rightlanequal = 3 then rightlane else 0
  let leftlane := if leftlaneraw = -2.0248375 then 30 - rightlane else leftlane
  let rightlane := if rightlaneraw = 2.0248375 then 30 - leftlane else rightlane
  let leftlane' :=
    if leftlaneraw = 0 ∧ rightlaneraw = 0 then 15
    else if leftlaneraw = 0 then 30 - rightlane
    else leftlane
  let rightlane' :=
    if leftlaneraw = 0 ∧ rightlaneraw = 0 then 15
    else if leftlaneraw = 0 then rightlane
    else if rightlaneraw = 0 then 30 - leftlane
    else rightlane
  lane_normalize leftlane' rightlane'

/-- `LeadDataCarController.update`. -/
def update (s : ControllerState) (inp : UpdateInputs) : ControllerState :=
  let vis := update_lead_visible_hysteresis s.lead_visible s.lead_on_counter
    s.lead_off_counter inp.status
  let gap := update_object_gap s.object_gap s.gap_counter (some inp.dRel)
  let lane := update_lane_positioning inp.leftLanePosition inp.rightLanePosition
    inp.leftLaneQuality inp.rightLaneQuality
  { lead_visible := vis.1
    lead_on_counter := vis.2.1
    lead_off_counter := vis.2.2
    object_gap := gap.1
    gap_counter := gap.2
    lead_distance := inp.dRel
    lead_rel_speed := inp.vRel
    target_distance := update_target_distance inp.dRel inp.vEgo inp.leadDistanceBars
    left_laneline := (lane.1 : ℚ)
    right_laneline := (lane.2 : ℚ) }

/-- `LeadDataCarController.lead_data`: the CAN-FD branch passes the
controller's lane lines to the constructor; the CAN branch omits them,
so they take the constructor defaults. -/
def lead_data (canfd : Bool) (s : ControllerState) : LeadData :=
  if canfd then
    { object_gap := s.object_gap
      lead_distance := s.lead_distance
      lead_rel_speed := s.lead_rel_speed
      lead_visible := s.lead_visible
      target_distance := s.target_distance
      left_laneline := s.left_laneline
      right_laneline := s.right_laneline }
  else
    { object_gap := s.object_gap
      lead_distance := s.lead_distance
      lead_rel_speed := s.lead_rel_speed
      lead_visible := s.lead_visible
      target_distance := s.target_distance }

/-! ### Basic facts about `pyRound` -/

theorem pyRound_half_bounds (q : ℚ) :
    q - 1/2 ≤ (pyRound q : ℚ) ∧ (pyRound q : ℚ) ≤ q + 1/2 := by
  have h1 : (⌊q⌋ : ℚ) ≤ q := Int.floor_le q
  have h2 : q < ⌊q⌋ + 1 := Int.lt_floor_add_one q
  unfold pyRound
  split_ifs with a b c <;> constructor <;> push_cast <;> linarith

theorem pyRound_le {q : ℚ} {n : ℤ} (h : q ≤ (n : ℚ)) : pyRound q ≤ n := by
  have hb := (pyRound_half_bounds q).2
  have hlt : (pyRound q : ℚ) < ((n + 1 : ℤ) : ℚ) := by push_cast; linarith
  have := Int.cast_lt.mp hlt
  omega

theorem le_pyRound {q : ℚ} {n : ℤ} (h : (n : ℚ) ≤ q) : n ≤ pyRound q := by
  have hb := (pyRound_half_bounds q).1
  have hlt : ((n - 1 : ℤ) : ℚ) < (pyRound q : ℚ) := by push_cast; linarith
  have := Int.cast_lt.mp hlt
  omega

theorem pyRound_intCast (n : ℤ) : pyRound (n : ℚ) = n := by
  have h1 := pyRound_le (q := (n : ℚ)) (n := n) le_rfl
  have h2 := le_pyRound (q := (n : ℚ)) (n := n) le_rfl
  omega

/-! ### Basic facts about the hysteresis primitive -/

theorem hysteresis_update_eq {α : Type} [DecidableEq α] (c : α) (k T : ℕ) :
    hysteresis_update c c k T = (c, 0) := by
  unfold hysteresis_update
  rw [if_pos rfl]

theorem hysteresis_update_ne_small {α : Type} [DecidableEq α] {c n : α} {k T : ℕ}
    (h : n ≠ c) (hk : k + 1 < T) : hysteresis_update c n k T = (c, k + 1) := by
  unfold hysteresis_update
  rw [if_neg h, if_neg (by omega)]

theorem hysteresis_update_adopt {α : Type} [DecidableEq α] {c n : α} {k T : ℕ}
    (h : n ≠ c) (hk : T ≤ k + 1) : hysteresis_update c n k T = (n, 0) := by
  unfold hysteresis_update
  rw [if_neg h, if_pos (by omega)]

theorem hysteresis_update_snd_lt {α : Type} [DecidableEq α]
    (c n : α) (k T : ℕ) (hT : 1 ≤ T) : (hysteresis_update c n k T).2 < T := by
  unfold hysteresis_update
  split_ifs <;> simp <;> omega

theorem hysteresis_run_nil {α : Type} [DecidableEq α] (c : α) (k T : ℕ) :
    hysteresis_run c k T [] = (c, k) := rfl

theorem hysteresis_run_cons {α : Type} [DecidableEq α] (c : α) (k T : ℕ)
    (x : α) (xs : List α) :
    hysteresis_run c k T (x :: xs) =
      hysteresis_run (hysteresis_update c x k T).1 (hysteresis_update c x k T).2 T xs := rfl

theorem hysteresis_run_append {α : Type} [DecidableEq α] (c : α) (k T : ℕ)
    (xs ys : List α) :
    hysteresis_run c k T (xs ++ ys) =
      hysteresis_run (hysteresis_run c k T xs).1 (hysteresis_run c k T xs).2 T ys := by
  unfold hysteresis_run
  rw [List.foldl_append]

/-- As long as every candidate differs from `current` and the counter stays
below the threshold, the current value survives and the counter counts cycles. -/
theorem hysteresis_run_all_ne {α : Type} [DecidableEq α] {T : ℕ} {c : α} :
    ∀ (xs : List α) (k : ℕ), (∀ x ∈ xs, x ≠ c) → k + xs.length < T →
      hysteresis_run c k T xs = (c, k + xs.length) := by
  intro xs
  induction xs with
  | nil => intro k _ _; simp [hysteresis_run_nil]
  | cons x xs ih =>
    intro k hne hlen
    simp only [List.length_cons] at hlen
    rw [hysteresis_run_cons,
      hysteresis_update_ne_small (hne x (List.mem_cons_self x xs)) (by omega)]
    have := ih (k + 1) (fun y hy => hne y (List.mem_cons_of_mem _ hy)) (by omega)
    simp only [List.length_cons]
    rw [this]
    congr 1
    omega

/-- C4 -- A candidate stream differing from `current` for exactly `T-1`
cycles and then matching it leaves the current value unchanged with counter
`0`; a stream differing from `current` for `T` consecutive cycles (the
candidate may change cycle to cycle) adopts the candidate of cycle `T`,
with counter `0`. -/
theorem C4_hysteresis_adoption {α : Type} [DecidableEq α] (T : ℕ) (hT : 1 ≤ T)
    (c : α) (xs : List α) (hlen : xs.length = T - 1) (hxs : ∀ x ∈ xs, x ≠ c)
    (ys : List α) (hlen2 : ys.length = T) (hys : ∀ y ∈ ys, y ≠ c) (h0 : ys ≠ []) :
    hysteresis_run c 0 T (xs ++ [c]) = (c, 0) ∧
    hysteresis_run c 0 T ys = (ys.getLast h0, 0) := by
  constructor
  · rw [hysteresis_run_append, hysteresis_run_all_ne xs 0 hxs (by omega)]
    simp only [hysteresis_run_cons, hysteresis_update_eq, hysteresis_run_nil]
  · obtain ⟨zs, z, hzs⟩ : ∃ zs z, ys = zs ++ [z] :=
      ⟨ys.dropLast, ys.getLast h0, (List.dropLast_append_getLast h0).symm⟩
    subst hzs
    have hzlen : zs.length = T - 1 := by
      simp only [List.length_append, List.length_singleton] at hlen2
      omega
    rw [hysteresis_run_append,
      hysteresis_run_all_ne zs 0 (fun y hy => hys y (List.mem_append_left _ hy)) (by omega)]
    have hz : z ≠ c := hys z (List.mem_append_right _ (List.mem_cons_self z []))
    rw [hysteresis_run_cons, hysteresis_update_adopt hz (by omega), hysteresis_run_nil]
    simp

/-- C4 witness: `T = 2`, current `0`, one differing cycle then a match keeps
`(0, 0)`; two differing cycles (with a changing candidate) adopt the second
candidate `2`. -/
theorem C4_hysteresis_adoption_witness :
    hysteresis_run 0 0 2 ([1] ++ [0]) = (0, 0) ∧
    hysteresis_run 0 0 2 [1, 2] = ([1, 2].getLast (by decide), 0) :=
  C4_hysteresis_adoption 2 (by decide) 0 [1] (by decide) (by decide)
    [1, 2] (by decide) (by decide) (by decide)

/-- C10 -- With a positive threshold the hysteresis primitive always returns
a counter strictly below the threshold; consequently after any `update` the
gap counter and both visibility counters stay strictly below `50`. -/
theorem C10_counters_below_threshold {α : Type} [DecidableEq α]
    (current new_value : α) (counter T : ℕ) (hT : 1 ≤ T)
    (s : ControllerState) (inp : UpdateInputs) :
    (hysteresis_update current new_value counter T).2 < T ∧
    (update s inp).gap_counter < 50 ∧
    (update s inp).lead_on_counter < 50 ∧
    (update s inp).lead_off_counter < 50 := by
  refine ⟨hysteresis_update_snd_lt _ _ _ _ hT, ?_, ?_, ?_⟩
  · simp only [update, update_object_gap]
    exact hysteresis_update_snd_lt _ _ _ _ (by norm_num [LEAD_HYSTERESIS_FRAMES])
  · simp only [update, update_lead_visible_hysteresis]
    split_ifs
    · exact hysteresis_update_snd_lt _ _ _ _ (by norm_num [LEAD_HYSTERESIS_FRAMES])
    · norm_num
  · simp only [update, update_lead_visible_hysteresis]
    split_ifs
    · norm_num
    · exact hysteresis_update_snd_lt _ _ _ _ (by norm_num [LEAD_HYSTERESIS_FRAMES])

/-- C10 witness at threshold `1`, an input counter `7` already above it, and
one concrete update cycle. -/
theorem C10_counters_below_threshold_witness :
    (hysteresis_update 0 5 7 1).2 < 1 ∧
    (update initState
      { dRel := 0, vRel := 0, status := false, vEgo := 0, leadDistanceBars := 0,
        leftLanePosition := 0, rightLanePosition := 0,
        leftLaneQuality := 0, rightLaneQuality := 0 }).gap_counter < 50 ∧
    (update initState
      { dRel := 0, vRel := 0, status := false, vEgo := 0, leadDistanceBars := 0,
        leftLanePosition := 0, rightLanePosition := 0,
        leftLaneQuality := 0, rightLaneQuality := 0 }).lead_on_counter < 50 ∧
    (update initState
      { dRel := 0, vRel := 0, status := false, vEgo := 0, leadDistanceBars := 0,
        leftLanePosition := 0, rightLanePosition := 0,
        leftLaneQuality := 0, rightLaneQuality := 0 }).lead_off_counter < 50 :=
  C10_counters_below_threshold 0 5 7 1 (by decide) initState _

/-- C8 -- Each cycle the visibility debounce feeds the raw flag's own
counter through the hysteresis primitive at threshold `50` and zeroes the
opposite counter; hence after each cycle (and after every `update`) at least
one of the two visibility counters is `0`. -/
theorem C8_visibility_debounce (lv : Bool) (onc offc : ℕ) (raw : Bool)
    (s : ControllerState) (inp : UpdateInputs) :
    LEAD_HYSTERESIS_FRAMES = 50 ∧
    update_lead_visible_hysteresis lv onc offc raw =
      (if raw then
        ((hysteresis_update lv raw onc 50).1, (hysteresis_update lv raw onc 50).2, 0)
      else
        ((hysteresis_update lv raw offc 50).1, 0, (hysteresis_update lv raw offc 50).2)) ∧
    ((update_lead_visible_hysteresis lv onc offc raw).2.1 = 0 ∨
      (update_lead_visible_hysteresis lv onc offc raw).2.2 = 0) ∧
    ((update s inp).lead_on_counter = 0 ∨ (update s inp).lead_off_counter = 0) := by
  refine ⟨rfl, ?_, ?_, ?_⟩
  · cases raw <;> rfl
  · cases raw <;> simp [update_lead_visible_hysteresis]
  · simp only [update, update_lead_visible_hysteresis]
    cases inp.status <;> simp

/-! ### Snapshot construction and the relative-gap encodings -/

/-- A controller state with distinctive lane-line values. -/
def C1state : ControllerState :=
  { lead_on_counter := 1, lead_off_counter := 0, lead_visible := true,
    gap_counter := 2, object_gap := 3, lead_distance := 12, lead_rel_speed := -1,
    target_distance := 17, left_laneline := 7, right_laneline := 23 }

/-- C1 counterexample -- the CAN snapshot does **not** carry the
controller's lane lines (it gets the constructor defaults `0`), while the
CAN-FD snapshot does: the opposite of the claim. -/
theorem C1_counterexample :
    C1state.left_laneline = 7 ∧ C1state.right_laneline = 23 ∧
    (lead_data false C1state).left_laneline = 0 ∧
    (lead_data false C1state).right_laneline = 0 ∧
    (lead_data true C1state).left_laneline = 7 ∧
    (lead_data true C1state).right_laneline = 23 :=
  ⟨rfl, rfl, rfl, rfl, rfl, rfl⟩

/-- C1 (amended) -- the CAN-FD snapshot carries the full field set
including the controller's lane lines; the CAN snapshot carries the other
fields but leaves the lane-line fields at their default `0`. -/
theorem C1_lead_data_fields (s : ControllerState) :
    lead_data true s =
      { object_gap := s.object_gap, lead_distance := s.lead_distance,
        lead_rel_speed := s.lead_rel_speed, lead_visible := s.lead_visible,
        target_distance := s.target_distance,
        left_laneline := s.left_laneline, right_laneline := s.right_laneline } ∧
    lead_data false s =
      { object_gap := s.object_gap, lead_distance := s.lead_distance,
        lead_rel_speed := s.lead_rel_speed, lead_visible := s.lead_visible,
        target_distance := s.target_distance,
        left_laneline := 0, right_laneline := 0 } :=
  ⟨rfl, rfl⟩

/-- C5 -- the CAN relative gap is `0`/`2`/`1` by `lead_distance = 0` and
the `-0.2` threshold, the CAN-FD one is `0`/`2`/`1` by `lead_visible` and
the `0` threshold; at `lead_rel_speed = -0.1` (visible lead at distance 12)
CAN yields `1` and CAN-FD yields `2`. -/
theorem C5_object_rel_gap :
    (∀ d : LeadData,
      (d.lead_distance = 0 → CanLeadData.object_rel_gap d = 0) ∧
      (d.lead_distance ≠ 0 → d.lead_rel_speed < -0.2 → CanLeadData.object_rel_gap d = 2) ∧
      (d.lead_distance ≠ 0 → -0.2 ≤ d.lead_rel_speed → CanLeadData.object_rel_gap d = 1) ∧
      (d.lead_visible = false → CanFdLeadData.object_rel_gap d = 0) ∧
      (d.lead_visible = true → d.lead_rel_speed < 0 → CanFdLeadData.object_rel_gap d = 2) ∧
      (d.lead_visible = true → 0 ≤ d.lead_rel_speed → CanFdLeadData.object_rel_gap d = 1)) ∧
    CanLeadData.object_rel_gap
      { object_gap := 4, lead_distance := 12, lead_rel_speed := -0.1,
        lead_visible := true, target_distance := 20 } = 1 ∧
    CanFdLeadData.object_rel_gap
      { object_gap := 4, lead_distance := 12, lead_rel_speed := -0.1,
        lead_visible := true, target_distance := 20 } = 2 := by
  refine ⟨fun d => ⟨?_, ?_, ?_, ?_, ?_, ?_⟩, ?_, ?_⟩
  · intro h; simp [CanLeadData.object_rel_gap, h]
  · intro h1 h2; simp [CanLeadData.object_rel_gap, h1, h2]
  · intro h1 h2; simp [CanLeadData.object_rel_gap, h1, not_lt.mpr h2]
  · intro h; simp [CanFdLeadData.object_rel_gap, h]
  · intro h1 h2; simp [CanFdLeadData.object_rel_gap, h1, h2]
  · intro h1 h2; simp [CanFdLeadData.object_rel_gap, h1, not_lt.mpr h2]
  · norm_num [CanLeadData.object_rel_gap]
  · norm_num [CanFdLeadData.object_rel_gap]

/-- C5 witness: exercising each conditional branch of the characterization
at concrete snapshots. -/
theorem C5_object_rel_gap_witness :
    CanLeadData.object_rel_gap
      { object_gap := 0, lead_distance := 0, lead_rel_speed := -1,
        lead_visible := false, target_distance := 10 } = 0 ∧
    CanLeadData.object_rel_gap
      { object_gap := 2, lead_distance := 15, lead_rel_speed := -1,
        lead_visible := true, target_distance := 10 } = 2 ∧
    CanLeadData.object_rel_gap
      { object_gap := 2, lead_distance := 15, lead_rel_speed := 1,
        lead_visible := true, target_distance := 10 } = 1 ∧
    CanFdLeadData.object_rel_gap
      { object_gap := 0, lead_distance := 0, lead_rel_speed := -1,
        lead_visible := false, target_distance := 10 } = 0 ∧
    CanFdLeadData.object_rel_gap
      { object_gap := 2, lead_distance := 15, lead_rel_speed := -1,
        lead_visible := true, target_distance := 10 } = 2 ∧
    CanFdLeadData.object_rel_gap
      { object_gap := 2, lead_distance := 15, lead_rel_speed := 1,
        lead_visible := true, target_distance := 10 } = 1 :=
  ⟨(C5_object_rel_gap.1 _).1 rfl,
   (C5_object_rel_gap.1 _).2.1 (by norm_num) (by norm_num),
   (C5_object_rel_gap.1 _).2.2.1 (by norm_num) (by norm_num),
   (C5_object_rel_gap.1 _).2.2.2.1 rfl,
   (C5_object_rel_gap.1 _).2.2.2.2.1 rfl (by norm_num),
   (C5_object_rel_gap.1 _).2.2.2.2.2 rfl (by norm_num)⟩

/-! ### Target distance -/

/-- The target-distance step as the spec words it: a time-to-collision
factor from `distance_setting ∈ {1,2,3} → {1.2, 1.7, 2.0}` with the
level-1 factor as fallback, `max(10, ego_speed * factor)`, capped at the
current lead distance when a lead is present. -/
def spec_target_distance (ego_speed : ℚ) (distance_setting : ℤ)
    (lead_distance : ℚ) : ℚ :=
  let factor : ℚ :=
    if distance_setting = 1 then 1.2
    else if distance_setting = 2 then 1.7
    else if distance_setting = 3 then 2.0
    else 1.2
  let base := max 10 (ego_speed * factor)
  if lead_distance ≠ 0 then min base lead_distance else base

/-- C6 -- the code's target-distance step agrees with the spec's
description on every input, unknown settings fall back to the level-1
factor, and the two quoted instances evaluate as stated. -/
theorem C6_target_distance_step :
    (∀ (v d : ℚ) (bars : ℤ),
      update_target_distance d v bars = spec_target_distance v bars d) ∧
    (∀ (v d : ℚ) (bars : ℤ), bars ≠ 1 → bars ≠ 2 → bars ≠ 3 →
      update_target_distance d v bars = update_target_distance d v 1) ∧
    update_target_distance 0 10 2 = 17 ∧
    update_target_distance 5 10 2 = 5 := by
  refine ⟨?_, ?_, ?_, ?_⟩
  · intro v d bars
    unfold update_target_distance spec_target_distance
    by_cases hd : d = 0 <;> simp [hd]
  · intro v d bars h1 h2 h3
    unfold update_target_distance
    simp [h1, h2, h3]
  · norm_num [update_target_distance, max_def, min_def]
  · norm_num [update_target_distance, max_def, min_def]

/-- C6 witness: the fallback applied at a concrete unknown setting `0`,
plus the two quoted instances via the theorem. -/
theorem C6_target_distance_step_witness :
    update_target_distance 0 10 0 = update_target_distance 0 10 1 ∧
    update_target_distance 0 10 2 = 17 ∧
    update_target_distance 5 10 2 = 5 :=
  ⟨C6_target_distance_step.2.1 10 0 0 (by decide) (by decide) (by decide),
   C6_target_distance_step.2.2.1,
   C6_target_distance_step.2.2.2⟩

/-- The time-to-collision factor table with its level-1 fallback, as a
standalone function. -/
def ttc_factor (distance_setting : ℤ) : ℚ :=
  if distance_setting = 1 then 1.2
  else if distance_setting = 2 then 1.7
  else if distance_setting = 3 then 2.0
  else 1.2

theorem update_target_distance_eq (d v : ℚ) (bars : ℤ) :
    update_target_distance d v bars =
      if d = 0 then max 10 (v * ttc_factor bars)
      else min (max 10 (v * ttc_factor bars)) d := rfl

/-- C2 counterexample -- a lead closer than `10` caps the target distance
below `10`: with `lead_distance = 5`, `ego_speed = 10`, setting `2` the
updated `target_distance` is `5`. -/
theorem C2_counterexample :
    (update initState
      { dRel := 5, vRel := 0, status := false, vEgo := 10, leadDistanceBars := 2,
        leftLanePosition := 0, rightLanePosition := 0,
        leftLaneQuality := 0, rightLaneQuality := 0 }).target_distance = 5 ∧
    (update initState
      { dRel := 5, vRel := 0, status := false, vEgo := 10, leadDistanceBars := 2,
        leftLanePosition := 0, rightLanePosition := 0,
        leftLaneQuality := 0, rightLaneQuality := 0 }).target_distance < 10 := by
  have h : (update initState
      { dRel := 5, vRel := 0, status := false, vEgo := 10, leadDistanceBars := 2,
        leftLanePosition := 0, rightLanePosition := 0,
        leftLaneQuality := 0, rightLaneQuality := 0 }).target_distance
      = update_target_distance 5 10 2 := rfl
  rw [h]
  norm_num [update_target_distance, max_def, min_def]

/-- C2 (amended) -- after `update`, `target_distance ≥ 10` holds whenever
no lead is present (`dRel = 0`) or the lead is at least `10` away; a lead
closer than `10` caps `target_distance` at the lead distance instead. -/
theorem C2_target_lower_bound (s : ControllerState) (inp : UpdateInputs)
    (h : inp.dRel = 0 ∨ 10 ≤ inp.dRel) :
    10 ≤ (update s inp).target_distance := by
  have heq : (update s inp).target_distance
      = update_target_distance inp.dRel inp.vEgo inp.leadDistanceBars := rfl
  rw [heq, update_target_distance_eq]
  rcases h with h | h
  · rw [if_pos h]
    exact le_max_left _ _
  · split_ifs with h0
    · exact le_max_left _ _
    · exact le_min (le_max_left _ _) h

/-- C2 witness: a concrete no-lead cycle. -/
theorem C2_target_lower_bound_witness :
    10 ≤ (update initState
      { dRel := 0, vRel := 0, status := false, vEgo := 30, leadDistanceBars := 2,
        leftLanePosition := 0, rightLanePosition := 0,
        leftLaneQuality := 0, rightLaneQuality := 0 }).target_distance :=
  C2_target_lower_bound initState _ (Or.inl rfl)

/-! ### Gap bucketing -/

/-- C7 -- the pre-debounce gap discretization: absent or zero distance maps
to `0`, then `2`/`3`/`4` below `20`/`25`/`30`, else `5`, with the six
boundary distances mapping to `2,3,3,4,4,5`. -/
theorem C7_gap_bucket :
    object_gap_bucket none = 0 ∧
    object_gap_bucket (some 0) = 0 ∧
    (∀ d : ℚ, d ≠ 0 → d < 20 → object_gap_bucket (some d) = 2) ∧
    (∀ d : ℚ, 20 ≤ d → d < 25 → object_gap_bucket (some d) = 3) ∧
    (∀ d : ℚ, 25 ≤ d → d < 30 → object_gap_bucket (some d) = 4) ∧
    (∀ d : ℚ, 30 ≤ d → object_gap_bucket (some d) = 5) ∧
    object_gap_bucket (some 19.999) = 2 ∧
    object_gap_bucket (some 20) = 3 ∧
    object_gap_bucket (some 24.999) = 3 ∧
    object_gap_bucket (some 25) = 4 ∧
    object_gap_bucket (some 29.999) = 4 ∧
    object_gap_bucket (some 30) = 5 := by
  refine ⟨rfl, by norm_num [object_gap_bucket], ?_, ?_, ?_, ?_, ?_, ?_, ?_, ?_, ?_, ?_⟩
  · intro d h1 h2
    simp only [object_gap_bucket]
    rw [if_neg h1, if_pos h2]
  · intro d h1 h2
    simp only [object_gap_bucket]
    rw [if_neg (by linarith), if_neg (by linarith), if_pos h2]
  · intro d h1 h2
    simp only [object_gap_bucket]
    rw [if_neg (by linarith), if_neg (by linarith), if_neg (by linarith), if_pos h2]
  · intro d h1
    simp only [object_gap_bucket]
    rw [if_neg (by linarith), if_neg (by linarith), if_neg (by linarith),
      if_neg (by linarith)]
  · norm_num [object_gap_bucket]
  · norm_num [object_gap_bucket]
  · norm_num [object_gap_bucket]
  · norm_num [object_gap_bucket]
  · norm_num [object_gap_bucket]
  · norm_num [object_gap_bucket]

/-- C7 witness: the interval characterizations applied at concrete
distances inside each bucket. -/
theorem C7_gap_bucket_witness :
    object_gap_bucket (some 7) = 2 ∧
    object_gap_bucket (some 22) = 3 ∧
    object_gap_bucket (some 27) = 4 ∧
    object_gap_bucket (some 99) = 5 :=
  ⟨C7_gap_bucket.2.2.1 7 (by norm_num) (by norm_num),
   C7_gap_bucket.2.2.2.1 22 (by norm_num) (by norm_num),
   C7_gap_bucket.2.2.2.2.1 27 (by norm_num) (by norm_num),
   C7_gap_bucket.2.2.2.2.2.1 99 (by norm_num)⟩

/-! ### Lane positioning -/

theorem lane_scale_nonneg (x : ℚ) : 0 ≤ lane_scale x := abs_nonneg _

theorem lane_scale_le_30 (x : ℚ) (hx : |x| ≤ 3.3) : lane_scale x ≤ 30 := by
  unfold lane_scale
  rw [abs_le] at hx
  have h1 : pyRound (15 + (x - 1.7) * (15 / 1.7)) ≤ 30 := by
    apply pyRound_le
    push_cast
    nlinarith [hx.1, hx.2]
  have h2 : -30 ≤ pyRound (15 + (x - 1.7) * (15 / 1.7)) := by
    apply le_pyRound
    push_cast
    nlinarith [hx.1, hx.2]
  exact abs_le.mpr ⟨h2, h1⟩

theorem lane_normalize_sum (a b : ℤ) :
    (lane_normalize a b).1 + (lane_normalize a b).2 = 30 := by
  simp only [lane_normalize]
  split_ifs
  · rfl
  · dsimp only
    omega

theorem lane_normalize_range (a b : ℤ) (ha : 0 ≤ a) (hb : 0 ≤ b) :
    0 ≤ (lane_normalize a b).1 ∧ (lane_normalize a b).1 ≤ 30 ∧
    0 ≤ (lane_normalize a b).2 ∧ (lane_normalize a b).2 ≤ 30 := by
  simp only [lane_normalize]
  split_ifs with h
  · norm_num
  · dsimp only
    have htot : 0 < a + b := by omega
    have htotq : (0:ℚ) < ((a + b : ℤ) : ℚ) := by exact_mod_cast htot
    have hq0 : (0:ℚ) ≤ ((a : ℤ) : ℚ) / ((a + b : ℤ) : ℚ) * 30 := by
      apply mul_nonneg _ (by norm_num)
      exact div_nonneg (by exact_mod_cast ha) (le_of_lt htotq)
    have hq30 : ((a : ℤ) : ℚ) / ((a + b : ℤ) : ℚ) * 30 ≤ ((30 : ℤ) : ℚ) := by
      have hr : ((a : ℤ) : ℚ) / ((a + b : ℤ) : ℚ) ≤ 1 := by
        rw [div_le_one htotq]
        exact_mod_cast (by omega : a ≤ a + b)
      calc ((a : ℤ) : ℚ) / ((a + b : ℤ) : ℚ) * 30 ≤ 1 * 30 := by
            exact mul_le_mul_of_nonneg_right hr (by norm_num)
        _ = ((30 : ℤ) : ℚ) := by norm_num
    have l0 : 0 ≤ pyRound (((a : ℤ) : ℚ) / ((a + b : ℤ) : ℚ) * 30) :=
      le_pyRound (by exact_mod_cast hq0)
    have l30 : pyRound (((a : ℤ) : ℚ) / ((a + b : ℤ) : ℚ) * 30) ≤ 30 :=
      pyRound_le hq30
    exact ⟨l0, l30, by omega, by omega⟩

theorem update_lane_positioning_sum (lraw rraw : ℚ) (lq rq : ℤ) :
    (update_lane_positioning lraw rraw lq rq).1 +
      (update_lane_positioning lraw rraw lq rq).2 = 30 := by
  simp only [update_lane_positioning]
  split_ifs <;> exact lane_normalize_sum _ _

theorem update_lane_positioning_range (lraw rraw : ℚ) (lq rq : ℤ)
    (hl : |lraw| ≤ 3.3) (hr : |rraw| ≤ 3.3) :
    0 ≤ (update_lane_positioning lraw rraw lq rq).1 ∧
    (update_lane_positioning lraw rraw lq rq).1 ≤ 30 ∧
    0 ≤ (update_lane_positioning lraw rraw lq rq).2 ∧
    (update_lane_positioning lraw rraw lq rq).2 ≤ 30 := by
  have h1 := lane_scale_nonneg lraw
  have h2 := lane_scale_le_30 lraw hl
  have h3 := lane_scale_nonneg rraw
  have h4 := lane_scale_le_30 rraw hr
  simp only [update_lane_positioning]
  split_ifs <;> exact lane_normalize_range _ _ (by omega) (by omega)

theorem pyRound_fifteen : pyRound (15 : ℚ) = 15 := by
  have h : (15 : ℚ) = ((15 : ℤ) : ℚ) := by norm_num
  rw [h, pyRound_intCast]

/-- Both raw boundaries `0` (any quality) land in the symmetric `(15, 15)`
fallback branch, and renormalization keeps it there. -/
theorem lane_zero_zero (lq rq : ℤ) : update_lane_positioning 0 0 lq rq = (15, 15) := by
  simp only [update_lane_positioning, lane_normalize]
  norm_num [pyRound_fifteen]

/-- C9 -- if both raw lane offsets are exactly `0` in a cycle, the update
sets both lane lines to `15`, whatever the quality grades. -/
theorem C9_symmetric_fallback (s : ControllerState) (inp : UpdateInputs)
    (hl : inp.leftLanePosition = 0) (hr : inp.rightLanePosition = 0) :
    (update s inp).left_laneline = 15 ∧ (update s inp).right_laneline = 15 := by
  have h1 : (update s inp).left_laneline
      = ((update_lane_positioning inp.leftLanePosition inp.rightLanePosition
          inp.leftLaneQuality inp.rightLaneQuality).1 : ℚ) := rfl
  have h2 : (update s inp).right_laneline
      = ((update_lane_positioning inp.leftLanePosition inp.rightLanePosition
          inp.leftLaneQuality inp.rightLaneQuality).2 : ℚ) := rfl
  rw [h1, h2, hl, hr, lane_zero_zero]
  norm_num

/-- C9 witness: a concrete cycle with zero raw offsets and junk qualities. -/
theorem C9_symmetric_fallback_witness :
    (update initState
      { dRel := 0, vRel := 0, status := false, vEgo := 0, leadDistanceBars := 0,
        leftLanePosition := 0, rightLanePosition := 0,
        leftLaneQuality := 7, rightLaneQuality := -1 }).left_laneline = 15 ∧
    (update initState
      { dRel := 0, vRel := 0, status := false, vEgo := 0, leadDistanceBars := 0,
        leftLanePosition := 0, rightLanePosition := 0,
        leftLaneQuality := 7, rightLaneQuality := -1 }).right_laneline = 15 :=
  C9_symmetric_fallback initState _ rfl rfl

/-- `5.1` m scales to exactly `45` on the 0..30 scale. -/
theorem lane_scale_ex : lane_scale (5.1 : ℚ) = 45 := by
  unfold lane_scale
  have h : (15 + ((5.1 : ℚ) - 1.7) * (15 / 1.7)) = ((45 : ℤ) : ℚ) := by norm_num
  rw [h, pyRound_intCast]
  rfl

theorem lane_scale_zero : lane_scale (0 : ℚ) = 0 := by
  unfold lane_scale
  have h : (15 + ((0 : ℚ) - 1.7) * (15 / 1.7)) = ((0 : ℤ) : ℚ) := by norm_num
  rw [h, pyRound_intCast]
  rfl

/-- An absent left boundary paired with a far-right boundary drives the
left lane line negative: `(0, 5.1)` with good quality yields `(-15, 45)`. -/
theorem lane_positioning_ex : update_lane_positioning 0 5.1 2 2 = (-15, 45) := by
  have hpy : pyRound (-15 : ℚ) = -15 := by
    have h : (-15 : ℚ) = ((-15 : ℤ) : ℚ) := by norm_num
    rw [h, pyRound_intCast]
  simp only [update_lane_positioning, lane_normalize, lane_scale_ex, lane_scale_zero]
  norm_num [hpy]

/-- C3 counterexample -- after an update with raw lane inputs
`(left, right) = (0, 5.1)` and both qualities `2`, the left lane line is
`-15`, outside the claimed interval `[0, 30]`. -/
theorem C3_counterexample :
    (update initState
      { dRel := 0, vRel := 0, status := false, vEgo := 0, leadDistanceBars := 0,
        leftLanePosition := 0, rightLanePosition := 5.1,
        leftLaneQuality := 2, rightLaneQuality := 2 }).left_laneline = -15 ∧
    (update initState
      { dRel := 0, vRel := 0, status := false, vEgo := 0, leadDistanceBars := 0,
        leftLanePosition := 0, rightLanePosition := 5.1,
        leftLaneQuality := 2, rightLaneQuality := 2 }).left_laneline < 0 := by
  have h1 : (update initState
      { dRel := 0, vRel := 0, status := false, vEgo := 0, leadDistanceBars := 0,
        leftLanePosition := 0, rightLanePosition := 5.1,
        leftLaneQuality := 2, rightLaneQuality := 2 }).left_laneline
      = ((update_lane_positioning 0 5.1 2 2).1 : ℚ) := rfl
  rw [h1, lane_positioning_ex]
  norm_num

/-- C3 (amended) -- after every update the lane lines sum to exactly `30`;
they each lie in `[0, 30]` whenever both raw offsets have magnitude at most
`3.3` m (which keeps both scaled magnitudes at most `30`); for larger
offsets combined with an absent or sentinel opposite side a lane line can
leave `[0, 30]`. -/
theorem C3_lane_invariant (s : ControllerState) (inp : UpdateInputs) :
    (update s inp).left_laneline + (update s inp).right_laneline = 30 ∧
    (|inp.leftLanePosition| ≤ 3.3 → |inp.rightLanePosition| ≤ 3.3 →
      0 ≤ (update s inp).left_laneline ∧ (update s inp).left_laneline ≤ 30 ∧
      0 ≤ (update s inp).right_laneline ∧ (update s inp).right_laneline ≤ 30) := by
  have h1 : (update s inp).left_laneline
      = ((update_lane_positioning inp.leftLanePosition inp.rightLanePosition
          inp.leftLaneQuality inp.rightLaneQuality).1 : ℚ) := rfl
  have h2 : (update s inp).right_laneline
      = ((update_lane_positioning inp.leftLanePosition inp.rightLanePosition
          inp.leftLaneQuality inp.rightLaneQuality).2 : ℚ) := rfl
  rw [h1, h2]
  constructor
  · exact_mod_cast update_lane_positioning_sum inp.leftLanePosition
      inp.rightLanePosition inp.leftLaneQuality inp.rightLaneQuality
  · intro hli hri
    obtain ⟨a0, a30, b0, b30⟩ := update_lane_positioning_range inp.leftLanePosition
      inp.rightLanePosition inp.leftLaneQuality inp.rightLaneQuality hli hri
    exact ⟨by exact_mod_cast a0, by exact_mod_cast a30,
      by exact_mod_cast b0, by exact_mod_cast b30⟩

/-- C3 witness: a concrete cycle with in-range offsets `(1.7, 5/2)`. -/
theorem C3_lane_invariant_witness :
    ((update initState
      { dRel := 0, vRel := 0, status := false, vEgo := 0, leadDistanceBars := 0,
        leftLanePosition := 1.7, rightLanePosition := 5/2,
        leftLaneQuality := 2, rightLaneQuality := 3 }).left_laneline +
     (update initState
      { dRel := 0, vRel := 0, status := false, vEgo := 0, leadDistanceBars := 0,
        leftLanePosition := 1.7, rightLanePosition := 5/2,
        leftLaneQuality := 2, rightLaneQuality := 3 }).right_laneline = 30) ∧
    (0 ≤ (update initState
      { dRel := 0, vRel := 0, status := false, vEgo := 0, leadDistanceBars := 0,
        leftLanePosition := 1.7, rightLanePosition := 5/2,
        leftLaneQuality := 2, rightLaneQuality := 3 }).left_laneline ∧
     (update initState
      { dRel := 0, vRel := 0, status := false, vEgo := 0, leadDistanceBars := 0,
        leftLanePosition := 1.7, rightLanePosition := 5/2,
        leftLaneQuality := 2, rightLaneQuality := 3 }).left_laneline ≤ 30 ∧
     0 ≤ (update initState
      { dRel := 0, vRel := 0, status := false, vEgo := 0, leadDistanceBars := 0,
        leftLanePosition := 1.7, rightLanePosition := 5/2,
        leftLaneQuality := 2, rightLaneQuality := 3 }).right_laneline ∧
     (update initState
      { dRel := 0, vRel := 0, status := false, vEgo := 0, leadDistanceBars := 0,
        leftLanePosition := 1.7, rightLanePosition := 5/2,
        leftLaneQuality := 2, rightLaneQuality := 3 }).right_laneline ≤ 30) :=
  ⟨(C3_lane_invariant initState _).1,
   (C3_lane_invariant initState _).2 (by norm_num [abs_le]) (by norm_num [abs_le])⟩

end LeadDataExt
